import Mathlib

/-!
Shallow embedding of the Image-api job engine (app/main.py, app/models.py,
app/routers/external.py).  Pure data is translated directly; the database
session becomes an explicit `Db` state threaded through each route handler;
external collaborators (PIL transform, httpx responses) become explicit
parameters describing their outcome.
-/

namespace ImageApi

/-- The `JobStatus` enum from app/models.py: processing | done | error. -/
inductive JobStatus where
  | processing
  | done
  | error
deriving DecidableEq

/-- The `ImageJob` row from app/models.py.  Nullable columns are `Option`;
`processed_path`, `error_message`, `width`, `height` default to NULL. -/
structure ImageJob where
  id : String
  user_id : String
  original_path : String
  processed_path : Option String
  mime_type : String
  params : List (String × String)
  status : JobStatus
  error_message : Option String
  width : Option Nat
  height : Option Nat
deriving DecidableEq

/-- The `ProcessingLog` row from app/models.py (audit entry). -/
structure ProcessingLog where
  user_id : String
  job_id : String
  action : String
  details : List (String × String)
deriving DecidableEq

/-- Authenticated user from app/auth.py (`User` pydantic model). -/
structure User where
  username : String
  role : String
deriving DecidableEq

/-- Persistent state: the two DB tables plus the set of file paths written
under DATA_DIR (blob store).  New rows are consed at the head. -/
structure Db where
  jobs : List ImageJob
  logs : List ProcessingLog
  files : List String
deriving DecidableEq

def dbEmpty : Db := { jobs := [], logs := [], files := [] }

/-- UPLOADS directory (DATA_DIR=/data default). -/
def UPLOADS : String := "/data/uploads"

/-- PROCESSED directory. -/
def PROCESSED : String := "/data/processed"

/-- Outcome of one HTTP route call: a normal response, a raised
`HTTPException(code, detail)`, or an uncaught Python exception propagating. -/
inductive ReqOutcome (α : Type) where
  | ok (a : α)
  | httpError (code : Nat) (detail : String)
  | exn (msg : String)
deriving DecidableEq

/-- Outcome of the injected transform collaborator (PIL open/convert/filter/
save collapsed into one step): success with output dimensions, or a failure
whose `str(e)` is `cause`. -/
inductive TransformResult where
  | ok (w h : Nat)
  | fail (cause : String)
deriving DecidableEq

/-- Outcome of one `client.get(url)` attempt inside `_get_with_retries`:
an HTTP response (status, content-type header, body) or a network error
(httpx.ReadTimeout / httpx.ConnectError) with message. -/
inductive AttemptOutcome where
  | resp (status : Nat) (ctype : String) (content : String)
  | netErr (msg : String)

/-- Result of `_get_with_retries`: the 200 response, or the raised
`HTTPException`. -/
inductive FetchResult where
  | success (ctype : String) (content : String)
  | failure (code : Nat) (detail : String)
deriving DecidableEq

/-- The statuses `_get_with_retries` retries: `r.status_code in (429, 500,
502, 503, 504)`. -/
def retryableStatus (s : Nat) : Bool :=
  s == 429 || s == 500 || s == 502 || s == 503 || s == 504

/-- Trace of a `_get_with_retries` run: final result, number of GET attempts
performed, and the multipliers i of each `asyncio.sleep(0.6 * i)` executed. -/
structure RetryTrace where
  result : FetchResult
  attemptsMade : Nat
  delays : List Nat
deriving DecidableEq

/-- The `for i in range(1, attempts + 1)` loop of `_get_with_retries`
(app/routers/external.py).  `script` gives the outcome of the attempt with
1-based index `i`; `lastExc` is the `last_exc` variable; the last argument
is the number of loop iterations remaining.  Status 200 returns; a
retryable status sleeps 0.6*i and continues; any other status raises
`HTTPException(502, "External API HTTP <s>")`; a network error records
`last_exc` and continues; on exhaustion the error carries `last_exc` when
set, else a generic message. -/
def retryLoop (script : Nat → AttemptOutcome) (i : Nat) (lastExc : Option String) :
    Nat → RetryTrace
  | 0 =>
    match lastExc with
    | some e =>
      { result := FetchResult.failure 502 ("External API network error: " ++ e),
        attemptsMade := 0, delays := [] }
    | none =>
      { result := FetchResult.failure 502 "External API failed after retries",
        attemptsMade := 0, delays := [] }
  | Nat.succ k =>
    match script i with
    | AttemptOutcome.resp s ct c =>
      if s == 200 then
        { result := FetchResult.success ct c, attemptsMade := 1, delays := [] }
      else if retryableStatus s then
        let rest := retryLoop script (i + 1) lastExc k
        { result := rest.result, attemptsMade := rest.attemptsMade + 1,
          delays := i :: rest.delays }
      else
        { result := FetchResult.failure 502 ("External API HTTP " ++ toString s),
          attemptsMade := 1, delays := [] }
    | AttemptOutcome.netErr m =>
      let rest := retryLoop script (i + 1) (some m) k
      { result := rest.result, attemptsMade := rest.attemptsMade + 1,
        delays := i :: rest.delays }

/-- Function `_get_with_retries(url, attempts)` — the loop starting at attempt 1 with
`last_exc = None`. -/
def get_with_retries (script : Nat → AttemptOutcome) (attempts : Nat) : RetryTrace :=
  retryLoop script 1 none attempts

/-- Replace every job whose id matches (`db.commit()` of a mutated row). -/
def updateJob (jobs : List ImageJob) (jobId : String) (j : ImageJob) : List ImageJob :=
  jobs.map (fun x => if x.id == jobId then j else x)

/-- The `log_action` helper from app/main.py: insert a ProcessingLog row. -/
def log_action (db : Db) (user_id job_id action : String)
    (details : List (String × String)) : Db :=
  { db with logs := { user_id := user_id, job_id := job_id, action := action,
                      details := details } :: db.logs }

/-- Python `s.startswith(pre)`. -/
def strStartsWith (s pre : String) : Bool := pre.data.isPrefixOf s.data

/-- Occurrence of a character pattern in a character list. -/
def listContains : List Char → List Char → Bool
  | [], pat => pat.isEmpty
  | c :: rest, pat => pat.isPrefixOf (c :: rest) || listContains rest pat

/-- Python `pat in s` on strings. -/
def strContains (s pat : String) : Bool := listContains s.data pat.data

/-- Lookup `db.get(ImageJob, job_id)`. -/
def findJob (db : Db) (jobId : String) : Option ImageJob :=
  db.jobs.find? (fun j => j.id == jobId)

/-- Input of POST /images/jobs (`create_job` in app/main.py): the upload,
the validated `op` query parameter, the caller, the transform outcome, and
the uuid the ORM assigns to the new row. -/
structure UploadIn where
  filename : String
  content_type : String
  op : String
  user : User
  transform : TransformResult
  jobId : String

/-- Route handler `create_job` (app/main.py lines 159-226).  Rejects non-image uploads
with 415; saves the original under `UPLOADS/<filename>`; inserts the job
with status processing; then the try block: on transform success writes
`PROCESSED/<id>.png`, sets processed_path/width/height/status=done,
commits and logs `action=op`, returning the job id; on any exception sets
status=error and error_message=str(e), commits, logs `action="error"` and
re-raises `HTTPException(500, ...)`. -/
def create_job (db : Db) (inp : UploadIn) : Db × ReqOutcome String :=
  if ¬ strStartsWith inp.content_type "image/" then
    (db, ReqOutcome.httpError 415 "Only image/* uploads are supported")
  else
    let original_path := UPLOADS ++ "/" ++ inp.filename
    let db0 := { db with files := original_path :: db.files }
    let job : ImageJob :=
      { id := inp.jobId, user_id := inp.user.username,
        original_path := original_path, processed_path := none,
        mime_type := inp.content_type, params := [("op", inp.op)],
        status := JobStatus.processing, error_message := none,
        width := none, height := none }
    let db1 := { db0 with jobs := job :: db0.jobs }
    match inp.transform with
    | TransformResult.ok w h =>
      let processed_path := PROCESSED ++ "/" ++ inp.jobId ++ ".png"
      let job2 := { job with
        processed_path := some processed_path,
        width := some w, height := some h, status := JobStatus.done }
      let db2 := { db1 with
        jobs := updateJob db1.jobs inp.jobId job2,
        files := processed_path :: db1.files }
      let db3 := log_action db2 inp.user.username inp.jobId inp.op
        [("width", toString w), ("height", toString h)]
      (db3, ReqOutcome.ok inp.jobId)
    | TransformResult.fail cause =>
      let job2 := { job with
        status := JobStatus.error,
        error_message := some cause }
      let db2 := { db1 with jobs := updateJob db1.jobs inp.jobId job2 }
      let db3 := log_action db2 inp.user.username inp.jobId "error"
        [("error", cause)]
      (db3, ReqOutcome.httpError 500 ("Processing failed: " ++ cause))

/-- Input of GET /external/random (`fetch_random_image`): the caller, the
optional `op` parameter, the outcomes of the picsum GET attempts, the
outcome of the PIL processing step, the uuid4 hex for the original file
name, and the uuid the ORM assigns to the job row. -/
structure FetchIn where
  user : User
  op : Option String
  script : Nat → AttemptOutcome
  transform : TransformResult
  uuidHex : String
  jobId : String

/-- Route handler `fetch_random_image` (app/routers/external.py lines 62-114).  Runs
`_get_with_retries` (a failure propagates as its HTTPException, before any
row exists); checks the content-type contains "image" (else 502); writes
the original to `UPLOADS/ext_<hex>.jpg`; inserts the job with status
processing; then, with NO try/except, processes the image: a PIL failure
propagates as an uncaught exception leaving the row in processing; on
success writes the processed file, sets processed_path/status=done/
width/height and commits. -/
def fetch_random_image (db : Db) (inp : FetchIn) : Db × ReqOutcome String :=
  match (get_with_retries inp.script 3).result with
  | FetchResult.failure c d => (db, ReqOutcome.httpError c d)
  | FetchResult.success ctype _content =>
    if ¬ strContains ctype "image" then
      (db, ReqOutcome.httpError 502
        ("External API returned non-image (" ++ ctype ++ ")"))
    else
      let original_path := UPLOADS ++ "/ext_" ++ inp.uuidHex ++ ".jpg"
      let db0 := { db with files := original_path :: db.files }
      let job : ImageJob :=
        { id := inp.jobId, user_id := inp.user.username,
          original_path := original_path, processed_path := none,
          mime_type := "image/jpeg",
          params := [("source", "picsum")],
          status := JobStatus.processing, error_message := none,
          width := none, height := none }
      let db1 := { db0 with jobs := job :: db0.jobs }
      match inp.transform with
      | TransformResult.fail cause => (db1, ReqOutcome.exn cause)
      | TransformResult.ok w h =>
        let ext := if inp.op == some "grayscale" || inp.op == some "edge"
          then ".png" else ".jpg"
        let processed_path := PROCESSED ++ "/" ++ inp.jobId ++ ext
        let job2 := { job with
          processed_path := some processed_path,
          status := JobStatus.done, width := some w, height := some h }
        let db2 := { db1 with
          jobs := updateJob db1.jobs inp.jobId job2,
          files := processed_path :: db1.files }
        (db2, ReqOutcome.ok inp.jobId)

/-- Input of GET /external/qrcode (`generate_qrcode`): caller, text, size,
the outcomes of the qrserver GET attempts, whether writing the processed
copy succeeds, the uuid4 hex and the job row uuid. -/
structure QrIn where
  user : User
  text : String
  size : Nat
  script : Nat → AttemptOutcome
  writeOk : Bool
  uuidHex : String
  jobId : String

/-- Route handler `generate_qrcode` (app/routers/external.py lines 116-158).  Fetch with
retries (failure propagates before any row); content-type check; original
saved to `UPLOADS/qr_<hex>.png`; job inserted with status processing; the
content is copied to `PROCESSED/<id>.png` with NO try/except (a write
failure propagates leaving the row in processing); then processed_path/
status=done/width=height=size are committed.  The final re-open of the
bytes for streaming does not touch the DB and is modelled as succeeding. -/
def generate_qrcode (db : Db) (inp : QrIn) : Db × ReqOutcome String :=
  match (get_with_retries inp.script 3).result with
  | FetchResult.failure c d => (db, ReqOutcome.httpError c d)
  | FetchResult.success ctype _content =>
    if ¬ strContains ctype "image" then
      (db, ReqOutcome.httpError 502
        ("External API returned non-image (" ++ ctype ++ ")"))
    else
      let original_path := UPLOADS ++ "/qr_" ++ inp.uuidHex ++ ".png"
      let db0 := { db with files := original_path :: db.files }
      let job : ImageJob :=
        { id := inp.jobId, user_id := inp.user.username,
          original_path := original_path, processed_path := none,
          mime_type := "image/png",
          params := [("source", "qrserver"), ("text_len", toString inp.text.length)],
          status := JobStatus.processing, error_message := none,
          width := none, height := none }
      let db1 := { db0 with jobs := job :: db0.jobs }
      if ¬ inp.writeOk then
        (db1, ReqOutcome.exn "write failed")
      else
        let processed_path := PROCESSED ++ "/" ++ inp.jobId ++ ".png"
        let job2 := { job with
          processed_path := some processed_path,
          status := JobStatus.done,
          width := some inp.size, height := some inp.size }
        let db2 := { db1 with
          jobs := updateJob db1.jobs inp.jobId job2,
          files := processed_path :: db1.files }
        (db2, ReqOutcome.ok inp.jobId)

/-- The JSON view returned by GET /images/{job_id}/meta. -/
structure MetaView where
  job_id : String
  status : JobStatus
  mime_type : String
  width : Option Nat
  height : Option Nat
  original_path : Option String
  processed_path : Option String
  error_message : Option String
deriving DecidableEq

/-- Route handler `get_meta` (app/main.py lines 282-302): 404 "Not Found" when the id is
unknown OR the caller is not the row's user; otherwise the view, with
original_path/processed_path only exposed when status is done. -/
def get_meta (db : Db) (jobId : String) (user : User) : ReqOutcome MetaView :=
  match findJob db jobId with
  | none => ReqOutcome.httpError 404 "Not Found"
  | some job =>
    if job.user_id ≠ user.username then
      ReqOutcome.httpError 404 "Not Found"
    else
      ReqOutcome.ok
        { job_id := job.id, status := job.status, mime_type := job.mime_type,
          width := job.width, height := job.height,
          original_path := if job.status = JobStatus.done
            then some job.original_path else none,
          processed_path := if job.status = JobStatus.done
            then job.processed_path else none,
          error_message := job.error_message }

/-- Route handler `get_file` (app/main.py lines 304-319): same merged 404 "Not Found" for
unknown id or foreign caller; then kind selects the path; a NULL/empty/
missing path gives 404 "file missing"; otherwise the file is served with
the original mime type for kind=original, image/png for processed. -/
def get_file (db : Db) (jobId : String) (kind : String) (user : User) :
    ReqOutcome (String × String) :=
  match findJob db jobId with
  | none => ReqOutcome.httpError 404 "Not Found"
  | some job =>
    if job.user_id ≠ user.username then
      ReqOutcome.httpError 404 "Not Found"
    else
      let path := if kind == "processed" then job.processed_path
        else some job.original_path
      match path with
      | none => ReqOutcome.httpError 404 "file missing"
      | some p =>
        if p == "" || ¬ db.files.contains p then
          ReqOutcome.httpError 404 "file missing"
        else
          let mt := if kind == "original" then job.mime_type else "image/png"
          ReqOutcome.ok (p, mt)

/-- The spec's job invariant: processed_path set iff done, error_message
set iff error. -/
def jobInv (j : ImageJob) : Prop :=
  (j.processed_path ≠ none ↔ j.status = JobStatus.done) ∧
  (j.error_message ≠ none ↔ j.status = JobStatus.error)

instance (j : ImageJob) : Decidable (jobInv j) := by
  unfold jobInv
  infer_instance

/-- The invariant over every job row in the store. -/
def dbInv (db : Db) : Prop := ∀ j ∈ db.jobs, jobInv j

instance (db : Db) : Decidable (dbInv db) := by
  unfold dbInv
  infer_instance

/-! Concrete fixtures used by witnesses and counterexamples. -/

def alice : User := { username := "alice", role := "user" }

def adminUser : User := { username := "admin", role := "admin" }

def mallory : User := { username := "mallory", role := "user" }

/-- Upstream always answers 200 with a JPEG body. -/
def script200 : Nat → AttemptOutcome :=
  fun _ => AttemptOutcome.resp 200 "image/jpeg" "JPGBYTES"

/-- Upstream always answers 404. -/
def script404 : Nat → AttemptOutcome :=
  fun _ => AttemptOutcome.resp 404 "text/html" "not found"

/-- Upstream always answers 501. -/
def script501 : Nat → AttemptOutcome :=
  fun _ => AttemptOutcome.resp 501 "text/html" "not implemented"

/-- Upstream always answers 503. -/
def script503 : Nat → AttemptOutcome :=
  fun _ => AttemptOutcome.resp 503 "text/html" "unavailable"

/-- Upload input whose transform succeeds. -/
def inpOkU : UploadIn :=
  { filename := "a.png", content_type := "image/png", op := "grayscale",
    user := alice, transform := TransformResult.ok 100 100, jobId := "jA" }

/-- Upload input (same filename as inpOkU, other id) whose transform succeeds. -/
def inpOkU2 : UploadIn :=
  { filename := "a.png", content_type := "image/png", op := "edge",
    user := alice, transform := TransformResult.ok 80 60, jobId := "jB" }

/-- Upload input whose transform raises with message "boom". -/
def inpFailU : UploadIn :=
  { filename := "b.png", content_type := "image/png", op := "grayscale",
    user := alice, transform := TransformResult.fail "boom", jobId := "jC" }

/-- Remote-fetch input: fetch succeeds, processing succeeds. -/
def inpOkF : FetchIn :=
  { user := alice, op := some "grayscale", script := script200,
    transform := TransformResult.ok 512 512, uuidHex := "aaaa", jobId := "jF" }

/-- Remote-fetch input: fetch succeeds, PIL processing raises. -/
def inpFailF : FetchIn :=
  { user := alice, op := some "grayscale", script := script200,
    transform := TransformResult.fail "cannot identify image file",
    uuidHex := "bbbb", jobId := "jG" }

/-- Remote-fetch input against an upstream that always answers 404. -/
def inp404F : FetchIn :=
  { user := alice, op := none, script := script404,
    transform := TransformResult.ok 512 512, uuidHex := "cccc", jobId := "jH" }

/-- QR input: fetch and write succeed. -/
def inpOkQ : QrIn :=
  { user := alice, text := "hi", size := 256, script := script200,
    writeOk := true, uuidHex := "dddd", jobId := "jQ" }

/-- The stored row of job "jA" after `create_job dbEmpty inpOkU`. -/
def jobArow : ImageJob :=
  { id := "jA", user_id := "alice", original_path := "/data/uploads/a.png",
    processed_path := some "/data/processed/jA.png", mime_type := "image/png",
    params := [("op", "grayscale")], status := JobStatus.done,
    error_message := none, width := some 100, height := some 100 }

/-- The stored row of job "jC" after `create_job dbEmpty inpFailU`. -/
def jobCrow : ImageJob :=
  { id := "jC", user_id := "alice", original_path := "/data/uploads/b.png",
    processed_path := none, mime_type := "image/png",
    params := [("op", "grayscale")], status := JobStatus.error,
    error_message := some "boom", width := none, height := none }

/-! Helper lemmas. -/

theorem mem_updateJob {l : List ImageJob} {jid : String} {u j : ImageJob}
    (h : j ∈ updateJob l jid u) : j = u ∨ j ∈ l := by
  unfold updateJob at h
  rcases List.mem_map.mp h with ⟨x, hx, hfx⟩
  by_cases hb : x.id == jid
  · left
    rw [if_pos hb] at hfx
    exact hfx.symm
  · right
    rw [if_neg hb] at hfx
    exact hfx ▸ hx

theorem allInv_updateJob {l : List ImageJob} (h : ∀ j ∈ l, jobInv j)
    {jid : String} {u : ImageJob} (hu : jobInv u) :
    ∀ j ∈ updateJob l jid u, jobInv j := by
  intro j hj
  rcases mem_updateJob hj with h1 | h2
  · exact h1 ▸ hu
  · exact h j h2

/-! Claim theorems. -/

/-- C1: every submission operation (create_job, fetch_random_image,
generate_qrcode) preserves the invariant that processed_path is set iff the
job's status is done and error_message is set iff the status is error, for
both transform success and transform failure. -/
theorem C1_job_invariant_preserved (db : Db) (h : dbInv db) :
    (∀ inp : UploadIn, dbInv (create_job db inp).1) ∧
    (∀ inp : FetchIn, dbInv (fetch_random_image db inp).1) ∧
    (∀ inp : QrIn, dbInv (generate_qrcode db inp).1) := by
  refine ⟨fun inp => ?_, fun inp => ?_, fun inp => ?_⟩
  · unfold create_job
    dsimp only
    split
    · exact h
    · split
      all_goals dsimp only [log_action]
      all_goals intro j hj
      all_goals dsimp only at hj
      · rcases mem_updateJob hj with rfl | hmem
        · exact ⟨by simp, by simp⟩
        · rcases List.mem_cons.mp hmem with rfl | hm
          · exact ⟨by simp, by simp⟩
          · exact h j hm
      · rcases mem_updateJob hj with rfl | hmem
        · exact ⟨by simp, by simp⟩
        · rcases List.mem_cons.mp hmem with rfl | hm
          · exact ⟨by simp, by simp⟩
          · exact h j hm
  · unfold fetch_random_image
    dsimp only
    split
    · exact h
    · split
      · exact h
      · split
        all_goals intro j hj
        all_goals dsimp only at hj
        · rcases List.mem_cons.mp hj with rfl | hm
          · exact ⟨by simp, by simp⟩
          · exact h j hm
        · rcases mem_updateJob hj with rfl | hmem
          · exact ⟨by simp, by simp⟩
          · rcases List.mem_cons.mp hmem with rfl | hm
            · exact ⟨by simp, by simp⟩
            · exact h j hm
  · unfold generate_qrcode
    dsimp only
    split
    · exact h
    · split
      · exact h
      · split
        all_goals intro j hj
        all_goals dsimp only at hj
        · rcases List.mem_cons.mp hj with rfl | hm
          · exact ⟨by simp, by simp⟩
          · exact h j hm
        · rcases mem_updateJob hj with rfl | hmem
          · exact ⟨by simp, by simp⟩
          · rcases List.mem_cons.mp hmem with rfl | hm
            · exact ⟨by simp, by simp⟩
            · exact h j hm

/-- Witness for C1 at concrete inputs. -/
theorem C1_witness :
    dbInv dbEmpty ∧
    dbInv (create_job dbEmpty inpOkU).1 ∧
    dbInv (fetch_random_image dbEmpty inpFailF).1 ∧
    dbInv (generate_qrcode dbEmpty inpOkQ).1 :=
  ⟨by decide,
   (C1_job_invariant_preserved dbEmpty (by decide)).1 inpOkU,
   (C1_job_invariant_preserved dbEmpty (by decide)).2.1 inpFailF,
   (C1_job_invariant_preserved dbEmpty (by decide)).2.2 inpOkQ⟩

/-- C10: an owner read through get_meta exposes original_path and
processed_path only when the job's status is done; for processing or error
both fields come back none even though the stored row has original_path set,
while error_message is returned exactly as stored. -/
theorem C10_meta_hides_paths_unless_done (db : Db) (jobId : String) (user : User)
    (job : ImageJob) (hfind : findJob db jobId = some job)
    (howner : job.user_id = user.username) :
    ∃ v : MetaView, get_meta db jobId user = ReqOutcome.ok v ∧
      v.error_message = job.error_message ∧
      (job.status = JobStatus.done →
        v.original_path = some job.original_path ∧
        v.processed_path = job.processed_path) ∧
      (job.status ≠ JobStatus.done →
        v.original_path = none ∧ v.processed_path = none) := by
  unfold get_meta
  rw [hfind]
  dsimp only
  rw [if_neg (not_not_intro howner)]
  refine ⟨_, rfl, rfl, fun hd => ?_, fun hd => ?_⟩
  · dsimp only
    rw [if_pos hd, if_pos hd]
    exact ⟨rfl, rfl⟩
  · dsimp only
    rw [if_neg hd, if_neg hd]
    exact ⟨rfl, rfl⟩

/-- Witness for C10: alice reads her failed job "jC"; both path fields come
back none although the stored row carries original_path, and error_message
is returned as stored. -/
theorem C10_witness :
    ∃ v : MetaView,
      get_meta (create_job dbEmpty inpFailU).1 "jC" alice = ReqOutcome.ok v ∧
      v.error_message = jobCrow.error_message ∧
      (jobCrow.status = JobStatus.done →
        v.original_path = some jobCrow.original_path ∧
        v.processed_path = jobCrow.processed_path) ∧
      (jobCrow.status ≠ JobStatus.done →
        v.original_path = none ∧ v.processed_path = none) :=
  C10_meta_hides_paths_unless_done (create_job dbEmpty inpFailU).1 "jC" alice
    jobCrow (by decide) (by decide)

/-- C6: for an existing job and a caller who is neither the owner nor an
admin, get_meta and get_file answer with exactly the same 404 "Not Found"
signal they give for a nonexistent job id. -/
theorem C6_denied_equals_missing (db : Db) (jid jidMiss : String) (caller : User)
    (job : ImageJob) (hfind : findJob db jid = some job)
    (hnotOwner : caller.username ≠ job.user_id)
    (hnotAdmin : caller.role ≠ "admin")
    (hmiss : findJob db jidMiss = none) :
    get_meta db jid caller = get_meta db jidMiss caller ∧
    get_meta db jid caller = ReqOutcome.httpError 404 "Not Found" ∧
    (∀ kind, get_file db jid kind caller = get_file db jidMiss kind caller) ∧
    (∀ kind, get_file db jid kind caller = ReqOutcome.httpError 404 "Not Found") := by
  have hno : job.user_id ≠ caller.username := fun e => hnotOwner e.symm
  have hmeta : get_meta db jid caller = ReqOutcome.httpError 404 "Not Found" := by
    unfold get_meta
    rw [hfind]
    dsimp only
    rw [if_pos hno]
  have hmetaMiss : get_meta db jidMiss caller = ReqOutcome.httpError 404 "Not Found" := by
    unfold get_meta
    rw [hmiss]
  have hfile : ∀ kind, get_file db jid kind caller =
      ReqOutcome.httpError 404 "Not Found" := by
    intro kind
    unfold get_file
    rw [hfind]
    dsimp only
    rw [if_pos hno]
  have hfileMiss : ∀ kind, get_file db jidMiss kind caller =
      ReqOutcome.httpError 404 "Not Found" := by
    intro kind
    unfold get_file
    rw [hmiss]
  exact ⟨hmeta.trans hmetaMiss.symm, hmeta,
    fun k => (hfile k).trans (hfileMiss k).symm, hfile⟩

/-- Witness for C6: mallory (neither owner nor admin) reading alice's job
"jA" gets the same 404 "Not Found" as for the nonexistent id "nope". -/
theorem C6_witness :
    get_meta (create_job dbEmpty inpOkU).1 "jA" mallory =
      get_meta (create_job dbEmpty inpOkU).1 "nope" mallory ∧
    get_meta (create_job dbEmpty inpOkU).1 "jA" mallory =
      ReqOutcome.httpError 404 "Not Found" ∧
    get_file (create_job dbEmpty inpOkU).1 "jA" "processed" mallory =
      get_file (create_job dbEmpty inpOkU).1 "nope" "processed" mallory ∧
    get_file (create_job dbEmpty inpOkU).1 "jA" "processed" mallory =
      ReqOutcome.httpError 404 "Not Found" :=
  have hc := C6_denied_equals_missing (create_job dbEmpty inpOkU).1 "jA" "nope"
    mallory jobArow (by decide) (by decide) (by decide) (by decide)
  ⟨hc.1, hc.2.1, hc.2.2.1 "processed", hc.2.2.2 "processed"⟩

/-- C7 counterexample: the claim that read access is granted iff the caller
is the owner or an admin fails — the admin caller reading alice's existing
job "jA" gets 404 instead of the job. -/
theorem C7_counterexample :
    ¬ (∀ (db : Db) (jid : String) (caller : User) (job : ImageJob),
        findJob db jid = some job →
        (caller.username = job.user_id ∨ caller.role = "admin") →
        ∃ v, get_meta db jid caller = ReqOutcome.ok v) := by
  intro hclaim
  rcases hclaim (create_job dbEmpty inpOkU).1 "jA" adminUser jobArow (by decide)
    (Or.inr rfl) with ⟨v, hv⟩
  have h404 : get_meta (create_job dbEmpty inpOkU).1 "jA" adminUser =
      ReqOutcome.httpError 404 "Not Found" := by decide
  rw [h404] at hv
  exact ReqOutcome.noConfusion hv

/-- C7 amended: read access on get_meta/get_file is granted iff the caller
IS the job's owner; the admin role gives no override on these reads. -/
theorem C7_amended_owner_only_access (db : Db) (jid : String) (caller : User)
    (job : ImageJob) (hfind : findJob db jid = some job) :
    ((∃ v, get_meta db jid caller = ReqOutcome.ok v) ↔
      caller.username = job.user_id) ∧
    (caller.username ≠ job.user_id →
      get_meta db jid caller = ReqOutcome.httpError 404 "Not Found" ∧
      ∀ kind, get_file db jid kind caller = ReqOutcome.httpError 404 "Not Found") := by
  constructor
  · constructor
    · intro hex
      rcases hex with ⟨v, hv⟩
      by_cases he : job.user_id = caller.username
      · exact he.symm
      · exfalso
        unfold get_meta at hv
        rw [hfind] at hv
        dsimp only at hv
        rw [if_pos he] at hv
        exact ReqOutcome.noConfusion hv
    · intro he
      unfold get_meta
      rw [hfind]
      dsimp only
      rw [if_neg (not_not_intro he.symm)]
      exact ⟨_, rfl⟩
  · intro hne
    have hno : job.user_id ≠ caller.username := fun e => hne e.symm
    constructor
    · unfold get_meta
      rw [hfind]
      dsimp only
      rw [if_pos hno]
    · intro kind
      unfold get_file
      rw [hfind]
      dsimp only
      rw [if_pos hno]

/-- Witness for the amended C7 at alice's own job "jA". -/
theorem C7_witness :
    ((∃ v, get_meta (create_job dbEmpty inpOkU).1 "jA" alice = ReqOutcome.ok v) ↔
      alice.username = jobArow.user_id) ∧
    (alice.username ≠ jobArow.user_id →
      get_meta (create_job dbEmpty inpOkU).1 "jA" alice =
        ReqOutcome.httpError 404 "Not Found" ∧
      ∀ kind, get_file (create_job dbEmpty inpOkU).1 "jA" kind alice =
        ReqOutcome.httpError 404 "Not Found") :=
  C7_amended_owner_only_access (create_job dbEmpty inpOkU).1 "jA" alice jobArow
    (by decide)

/-- C2 counterexample: after the job row "jC" is persisted, the transform
failure IS thrown back to the caller as HTTPException(500) and the job id is
not returned. -/
theorem C2_counterexample :
    (create_job dbEmpty inpFailU).2 =
      ReqOutcome.httpError 500 "Processing failed: boom" ∧
    (create_job dbEmpty inpFailU).2 ≠ ReqOutcome.ok "jC" ∧
    (findJob (create_job dbEmpty inpFailU).1 "jC").isSome = true := by decide

/-- C2 amended: a transform failure is captured into the job's terminal
Error state with an "error" audit entry, but create_job then raises
HTTPException(500) to the caller; the job id is returned only when the
terminal outcome is Done. -/
theorem C2_amended_error_recorded_but_raised (db : Db) (inp : UploadIn)
    (hct : strStartsWith inp.content_type "image/" = true) :
    (∀ w h, inp.transform = TransformResult.ok w h →
      (create_job db inp).2 = ReqOutcome.ok inp.jobId) ∧
    (∀ cause, inp.transform = TransformResult.fail cause →
      (create_job db inp).2 =
        ReqOutcome.httpError 500 ("Processing failed: " ++ cause) ∧
      (∃ j, findJob (create_job db inp).1 inp.jobId = some j ∧
        j.status = JobStatus.error ∧ j.error_message = some cause) ∧
      (∃ l, (create_job db inp).1.logs = l :: db.logs ∧
        l.action = "error" ∧ l.job_id = inp.jobId)) := by
  constructor
  · intro w h htr
    unfold create_job
    rw [if_neg (not_not_intro hct), htr]
  · intro cause htr
    unfold create_job
    rw [if_neg (not_not_intro hct), htr]
    dsimp only [log_action, findJob, updateJob]
    rw [List.map_cons]
    dsimp only
    rw [if_pos (by simp)]
    rw [List.find?_cons_of_pos _ (by simp)]
    exact ⟨rfl, ⟨_, rfl, rfl, rfl⟩, ⟨_, rfl, rfl, rfl⟩⟩

/-- Witness for the amended C2 at concrete success and failure inputs. -/
theorem C2_witness :
    (create_job dbEmpty inpOkU).2 = ReqOutcome.ok inpOkU.jobId ∧
    (create_job dbEmpty inpFailU).2 =
      ReqOutcome.httpError 500 ("Processing failed: " ++ "boom") :=
  ⟨(C2_amended_error_recorded_but_raised dbEmpty inpOkU (by decide)).1 100 100 rfl,
   ((C2_amended_error_recorded_but_raised dbEmpty inpFailU (by decide)).2 "boom" rfl).1⟩

/-- C3 counterexample: a fetch_random_image submission whose PIL processing
fails after the job row "jG" was persisted completes (the exception
propagates) with the job still in processing state. -/
theorem C3_counterexample :
    Option.map ImageJob.status (findJob (fetch_random_image dbEmpty inpFailF).1 "jG") =
      some JobStatus.processing ∧
    (fetch_random_image dbEmpty inpFailF).2 =
      ReqOutcome.exn "cannot identify image file" := by decide

/-- C3 amended: upload submissions through create_job always leave the
created job in done or error when the call completes, but remote-fetch
submissions whose processing fails after the row is created leave the job
in processing. -/
theorem C3_amended_upload_terminal_remote_stuck (db : Db) :
    (∀ inp : UploadIn, strStartsWith inp.content_type "image/" = true →
      ∃ j, findJob (create_job db inp).1 inp.jobId = some j ∧
        (j.status = JobStatus.done ∨ j.status = JobStatus.error)) ∧
    (∀ (inp : FetchIn) (ct c cause : String),
      (get_with_retries inp.script 3).result = FetchResult.success ct c →
      strContains ct "image" = true →
      inp.transform = TransformResult.fail cause →
      Option.map ImageJob.status (findJob (fetch_random_image db inp).1 inp.jobId) =
        some JobStatus.processing ∧
      (fetch_random_image db inp).2 = ReqOutcome.exn cause) := by
  constructor
  · intro inp hct
    cases htr : inp.transform with
    | ok w h =>
      unfold create_job
      rw [if_neg (not_not_intro hct), htr]
      dsimp only [log_action, findJob, updateJob]
      rw [List.map_cons]
      dsimp only
      rw [if_pos (by simp)]
      rw [List.find?_cons_of_pos _ (by simp)]
      exact ⟨_, rfl, Or.inl rfl⟩
    | fail cause =>
      unfold create_job
      rw [if_neg (not_not_intro hct), htr]
      dsimp only [log_action, findJob, updateJob]
      rw [List.map_cons]
      dsimp only
      rw [if_pos (by simp)]
      rw [List.find?_cons_of_pos _ (by simp)]
      exact ⟨_, rfl, Or.inr rfl⟩
  · intro inp ct c cause hfetch hctype htr
    unfold fetch_random_image
    rw [hfetch]
    dsimp only
    rw [if_neg (not_not_intro hctype), htr]
    dsimp only [findJob]
    rw [List.find?_cons_of_pos _ (by simp)]
    exact ⟨rfl, rfl⟩

/-- Witness for the amended C3 at concrete inputs. -/
theorem C3_witness :
    (∃ j, findJob (create_job dbEmpty inpFailU).1 inpFailU.jobId = some j ∧
      (j.status = JobStatus.done ∨ j.status = JobStatus.error)) ∧
    Option.map ImageJob.status
        (findJob (fetch_random_image dbEmpty inpFailF).1 inpFailF.jobId) =
      some JobStatus.processing :=
  ⟨(C3_amended_upload_terminal_remote_stuck dbEmpty).1 inpFailU (by decide),
   ((C3_amended_upload_terminal_remote_stuck dbEmpty).2 inpFailF "image/jpeg"
      "JPGBYTES" "cannot identify image file" (by decide) (by decide) rfl).1⟩

/-- C4 counterexample: a remote fetch that persistently answers HTTP 404
produces NO job row at all — the store is unchanged and the caller gets the
upstream 502 error, instead of a job created in Error state. -/
theorem C4_counterexample :
    (fetch_random_image dbEmpty inp404F).1 = dbEmpty ∧
    (fetch_random_image dbEmpty inp404F).2 =
      ReqOutcome.httpError 502 "External API HTTP 404" := by decide

/-- C4 amended: when the retrying fetch fails (exhaustion or hard upstream
error), fetch_random_image returns the raised HTTPException directly and
leaves the store untouched — no job row is ever created for a failed
fetch. -/
theorem C4_amended_failed_fetch_creates_no_job (db : Db) (inp : FetchIn)
    (c : Nat) (d : String)
    (hf : (get_with_retries inp.script 3).result = FetchResult.failure c d) :
    fetch_random_image db inp = (db, ReqOutcome.httpError c d) := by
  unfold fetch_random_image
  rw [hf]

/-- Witness for the amended C4 at the always-404 upstream. -/
theorem C4_witness :
    fetch_random_image dbEmpty inp404F =
      (dbEmpty, ReqOutcome.httpError 502 "External API HTTP 404") :=
  C4_amended_failed_fetch_creates_no_job dbEmpty inp404F 502
    "External API HTTP 404" (by decide)

/-- C5 counterexample: HTTP 501 is a 5xx status, yet the fetcher hard-fails
after a single attempt with no retry and no backoff delay; and after three
retryable 503 failures the surfaced error is the generic
"failed after retries" message, not the last observed 503 cause. -/
theorem C5_counterexample :
    (get_with_retries script501 3).attemptsMade = 1 ∧
    (get_with_retries script501 3).delays = [] ∧
    (get_with_retries script501 3).result =
      FetchResult.failure 502 "External API HTTP 501" ∧
    get_with_retries script503 3 =
      { result := FetchResult.failure 502 "External API failed after retries",
        attemptsMade := 3, delays := [1, 2, 3] } := by decide

/-- One-step unfolding of the retry loop on a positive iteration count. -/
theorem retryLoop_succ (script : Nat → AttemptOutcome) (i : Nat)
    (le : Option String) (k : Nat) :
    retryLoop script i le (k + 1) =
      match script i with
      | AttemptOutcome.resp s ct c =>
        if s == 200 then
          { result := FetchResult.success ct c, attemptsMade := 1, delays := [] }
        else if retryableStatus s then
          { result := (retryLoop script (i + 1) le k).result,
            attemptsMade := (retryLoop script (i + 1) le k).attemptsMade + 1,
            delays := i :: (retryLoop script (i + 1) le k).delays }
        else
          { result := FetchResult.failure 502 ("External API HTTP " ++ toString s),
            attemptsMade := 1, delays := [] }
      | AttemptOutcome.netErr m =>
        { result := (retryLoop script (i + 1) (some m) k).result,
          attemptsMade := (retryLoop script (i + 1) (some m) k).attemptsMade + 1,
          delays := i :: (retryLoop script (i + 1) (some m) k).delays } := rfl

/-- C5 amended: the fetcher performs at most `attempts` GET attempts; a 200
succeeds immediately; exactly the statuses 429/500/502/503/504 are retried
after a linear backoff of baseDelay times the attempt number (other
statuses, including other 5xx such as 501, hard-fail immediately with no
retry); network errors are retried the same way recording the message; on
exhaustion the error carries the last network-error cause when one was
recorded, else a generic message that does not name the last status. -/
theorem C5_amended_retry_policy :
    (∀ (script : Nat → AttemptOutcome) (i : Nat) (le : Option String) (k : Nat),
      (retryLoop script i le k).attemptsMade ≤ k) ∧
    (∀ (script : Nat → AttemptOutcome) (k : Nat) (ct c : String),
      script 1 = AttemptOutcome.resp 200 ct c →
      get_with_retries script (k + 1) =
        { result := FetchResult.success ct c, attemptsMade := 1, delays := [] }) ∧
    (∀ (script : Nat → AttemptOutcome) (k s : Nat) (ct c : String),
      script 1 = AttemptOutcome.resp s ct c →
      (s == 200) = false → retryableStatus s = false →
      get_with_retries script (k + 1) =
        { result := FetchResult.failure 502 ("External API HTTP " ++ toString s),
          attemptsMade := 1, delays := [] }) ∧
    (∀ (script : Nat → AttemptOutcome) (i : Nat) (le : Option String) (k s : Nat)
      (ct c : String),
      script i = AttemptOutcome.resp s ct c →
      (s == 200) = false → retryableStatus s = true →
      retryLoop script i le (k + 1) =
        { result := (retryLoop script (i + 1) le k).result,
          attemptsMade := (retryLoop script (i + 1) le k).attemptsMade + 1,
          delays := i :: (retryLoop script (i + 1) le k).delays }) ∧
    (∀ (script : Nat → AttemptOutcome) (i : Nat) (le : Option String) (k : Nat)
      (m : String),
      script i = AttemptOutcome.netErr m →
      retryLoop script i le (k + 1) =
        { result := (retryLoop script (i + 1) (some m) k).result,
          attemptsMade := (retryLoop script (i + 1) (some m) k).attemptsMade + 1,
          delays := i :: (retryLoop script (i + 1) (some m) k).delays }) ∧
    (∀ (script : Nat → AttemptOutcome) (i : Nat),
      retryLoop script i none 0 =
        { result := FetchResult.failure 502 "External API failed after retries",
          attemptsMade := 0, delays := [] }) ∧
    (∀ (script : Nat → AttemptOutcome) (i : Nat) (m : String),
      retryLoop script i (some m) 0 =
        { result := FetchResult.failure 502 ("External API network error: " ++ m),
          attemptsMade := 0, delays := [] }) := by
  refine ⟨?_, ?_, ?_, ?_, ?_, ?_, ?_⟩
  · intro script i le k
    induction k generalizing i le with
    | zero =>
      cases le with
      | none => exact Nat.le_refl 0
      | some m => exact Nat.le_refl 0
    | succ k ih =>
      rw [retryLoop_succ]
      cases hs : script i with
      | resp s ct c =>
        dsimp only
        by_cases h200 : (s == 200) = true
        · rw [if_pos h200]
          exact Nat.succ_le_succ (Nat.zero_le k)
        · rw [if_neg h200]
          by_cases hr : retryableStatus s = true
          · rw [if_pos hr]
            exact Nat.succ_le_succ (ih (i + 1) le)
          · rw [if_neg hr]
            exact Nat.succ_le_succ (Nat.zero_le k)
      | netErr m =>
        exact Nat.succ_le_succ (ih (i + 1) (some m))
  · intro script k ct c h1
    unfold get_with_retries retryLoop
    rw [h1]
    rfl
  · intro script k s ct c h1 h200 hr
    unfold get_with_retries retryLoop
    rw [h1]
    dsimp only
    rw [if_neg (by simp [h200]), if_neg (by simp [hr])]
  · intro script i le k s ct c h1 h200 hr
    rw [retryLoop_succ, h1]
    dsimp only
    rw [if_neg (by simp [h200]), if_pos hr]
  · intro script i le k m h1
    rw [retryLoop_succ, h1]
  · intro script i
    rfl
  · intro script i m
    rfl

/-- Witness for the amended C5 at concrete scripts. -/
theorem C5_witness :
    (retryLoop script503 1 none 3).attemptsMade ≤ 3 ∧
    get_with_retries script200 3 =
      { result := FetchResult.success "image/jpeg" "JPGBYTES",
        attemptsMade := 1, delays := [] } ∧
    get_with_retries script501 3 =
      { result := FetchResult.failure 502 ("External API HTTP " ++ toString 501),
        attemptsMade := 1, delays := [] } ∧
    retryLoop script503 1 none 3 =
      { result := (retryLoop script503 2 none 2).result,
        attemptsMade := (retryLoop script503 2 none 2).attemptsMade + 1,
        delays := 1 :: (retryLoop script503 2 none 2).delays } ∧
    retryLoop script503 7 none 0 =
      { result := FetchResult.failure 502 "External API failed after retries",
        attemptsMade := 0, delays := [] } :=
  ⟨C5_amended_retry_policy.1 script503 1 none 3,
   C5_amended_retry_policy.2.1 script200 2 "image/jpeg" "JPGBYTES" rfl,
   C5_amended_retry_policy.2.2.1 script501 2 501 "text/html" "not implemented"
     rfl (by decide) (by decide),
   C5_amended_retry_policy.2.2.2.1 script503 1 none 2 503 "text/html"
     "unavailable" rfl (by decide) (by decide),
   C5_amended_retry_policy.2.2.2.2.2.1 script503 7⟩

/-- C8 counterexample: a successful create_job submission produces exactly
ONE audit entry, whose action is the operation — there is no
submission-time "ingested" entry — and the remote-fetch route logs
nothing at all. -/
theorem C8_counterexample :
    (create_job dbEmpty inpOkU).1.logs.length = 1 ∧
    (create_job dbEmpty inpOkU).1.logs.map ProcessingLog.action = ["grayscale"] ∧
    (fetch_random_image dbEmpty inpOkF).1.logs = [] := by decide

/-- C8 amended: create_job appends exactly one audit entry, at the terminal
transition only — action = op on success, "error" on failure — with no
submission-time "ingested" entry, and the remote routes
(fetch_random_image, generate_qrcode) never touch the audit log. -/
theorem C8_amended_single_terminal_audit (db : Db) :
    (∀ (inp : UploadIn) (w h : Nat),
      strStartsWith inp.content_type "image/" = true →
      inp.transform = TransformResult.ok w h →
      ∃ l, (create_job db inp).1.logs = l :: db.logs ∧
        l.action = inp.op ∧ l.job_id = inp.jobId) ∧
    (∀ (inp : UploadIn) (cause : String),
      strStartsWith inp.content_type "image/" = true →
      inp.transform = TransformResult.fail cause →
      ∃ l, (create_job db inp).1.logs = l :: db.logs ∧
        l.action = "error" ∧ l.job_id = inp.jobId) ∧
    (∀ inp : FetchIn, (fetch_random_image db inp).1.logs = db.logs) ∧
    (∀ inp : QrIn, (generate_qrcode db inp).1.logs = db.logs) := by
  refine ⟨?_, ?_, ?_, ?_⟩
  · intro inp w h hct htr
    unfold create_job
    rw [if_neg (not_not_intro hct), htr]
    dsimp only [log_action]
    exact ⟨_, rfl, rfl, rfl⟩
  · intro inp cause hct htr
    unfold create_job
    rw [if_neg (not_not_intro hct), htr]
    dsimp only [log_action]
    exact ⟨_, rfl, rfl, rfl⟩
  · intro inp
    unfold fetch_random_image
    dsimp only
    split
    · rfl
    · split
      · rfl
      · split
        · rfl
        · rfl
  · intro inp
    unfold generate_qrcode
    dsimp only
    split
    · rfl
    · split
      · rfl
      · split
        · rfl
        · rfl

/-- Witness for the amended C8 at concrete inputs. -/
theorem C8_witness :
    (∃ l, (create_job dbEmpty inpOkU).1.logs = l :: dbEmpty.logs ∧
      l.action = inpOkU.op ∧ l.job_id = inpOkU.jobId) ∧
    (∃ l, (create_job dbEmpty inpFailU).1.logs = l :: dbEmpty.logs ∧
      l.action = "error" ∧ l.job_id = inpFailU.jobId) ∧
    (fetch_random_image dbEmpty inpOkF).1.logs = dbEmpty.logs ∧
    (generate_qrcode dbEmpty inpOkQ).1.logs = dbEmpty.logs :=
  ⟨(C8_amended_single_terminal_audit dbEmpty).1 inpOkU 100 100 (by decide) rfl,
   (C8_amended_single_terminal_audit dbEmpty).2.1 inpFailU "boom" (by decide) rfl,
   (C8_amended_single_terminal_audit dbEmpty).2.2.1 inpOkF,
   (C8_amended_single_terminal_audit dbEmpty).2.2.2 inpOkQ⟩

/-- C9 counterexample: two distinct upload submissions ("jA" and "jB") that
carry the same client filename get the SAME original blob reference, so the
second overwrites the first's stored original bytes. -/
theorem C9_counterexample :
    "jA" ≠ "jB" ∧
    Option.map ImageJob.original_path
        (findJob (create_job (create_job dbEmpty inpOkU).1 inpOkU2).1 "jA") =
      some "/data/uploads/a.png" ∧
    Option.map ImageJob.original_path
        (findJob (create_job (create_job dbEmpty inpOkU).1 inpOkU2).1 "jB") =
      some "/data/uploads/a.png" := by decide

/-- Concatenation with a fixed prefix and suffix is injective on strings. -/
theorem append_affix_inj (a u1 u2 b : String)
    (h : a ++ u1 ++ b = a ++ u2 ++ b) : u1 = u2 := by
  have hd : (a ++ u1 ++ b).data = (a ++ u2 ++ b).data := congrArg String.data h
  simp only [String.data_append] at hd
  exact String.ext (List.append_cancel_left (List.append_cancel_right hd))

/-- C9 amended: the remote-fetch route derives the original reference
injectively from the per-request uuid hex (distinct uuids give distinct
references), but the upload route stores originals under the client-supplied
filename, so distinct submissions sharing a filename share one original
reference and can overwrite each other. -/
theorem C9_amended_upload_refs_collide (db : Db) :
    (∀ inp : UploadIn, strStartsWith inp.content_type "image/" = true →
      ∃ j, findJob (create_job db inp).1 inp.jobId = some j ∧
        j.original_path = UPLOADS ++ "/" ++ inp.filename) ∧
    (∀ u1 u2 : String, u1 ≠ u2 →
      UPLOADS ++ "/ext_" ++ u1 ++ ".jpg" ≠ UPLOADS ++ "/ext_" ++ u2 ++ ".jpg") ∧
    (∀ (inp : FetchIn) (ct c : String),
      (get_with_retries inp.script 3).result = FetchResult.success ct c →
      strContains ct "image" = true →
      ∃ j, findJob (fetch_random_image db inp).1 inp.jobId = some j ∧
        j.original_path = UPLOADS ++ "/ext_" ++ inp.uuidHex ++ ".jpg") := by
  refine ⟨?_, ?_, ?_⟩
  · intro inp hct
    cases htr : inp.transform with
    | ok w h =>
      unfold create_job
      rw [if_neg (not_not_intro hct), htr]
      dsimp only [log_action, findJob, updateJob]
      rw [List.map_cons]
      dsimp only
      rw [if_pos (by simp)]
      rw [List.find?_cons_of_pos _ (by simp)]
      exact ⟨_, rfl, rfl⟩
    | fail cause =>
      unfold create_job
      rw [if_neg (not_not_intro hct), htr]
      dsimp only [log_action, findJob, updateJob]
      rw [List.map_cons]
      dsimp only
      rw [if_pos (by simp)]
      rw [List.find?_cons_of_pos _ (by simp)]
      exact ⟨_, rfl, rfl⟩
  · intro u1 u2 hne heq
    exact hne (append_affix_inj (UPLOADS ++ "/ext_") u1 u2 ".jpg"
      (by simpa [String.append_assoc] using heq))
  · intro inp ct c hfetch hctype
    unfold fetch_random_image
    rw [hfetch]
    dsimp only
    rw [if_neg (not_not_intro hctype)]
    cases htr : inp.transform with
    | fail cause =>
      dsimp only [findJob]
      rw [List.find?_cons_of_pos _ (by simp)]
      exact ⟨_, rfl, rfl⟩
    | ok w h =>
      dsimp only [findJob, updateJob]
      rw [List.map_cons]
      dsimp only
      rw [if_pos (by simp)]
      rw [List.find?_cons_of_pos _ (by simp)]
      exact ⟨_, rfl, rfl⟩

/-- Witness for the amended C9 at concrete inputs. -/
theorem C9_witness :
    (∃ j, findJob (create_job dbEmpty inpOkU).1 inpOkU.jobId = some j ∧
      j.original_path = UPLOADS ++ "/" ++ inpOkU.filename) ∧
    (UPLOADS ++ "/ext_" ++ "aaaa" ++ ".jpg" ≠
      UPLOADS ++ "/ext_" ++ "bbbb" ++ ".jpg") ∧
    (∃ j, findJob (fetch_random_image dbEmpty inpOkF).1 inpOkF.jobId = some j ∧
      j.original_path = UPLOADS ++ "/ext_" ++ inpOkF.uuidHex ++ ".jpg") :=
  ⟨(C9_amended_upload_refs_collide dbEmpty).1 inpOkU (by decide),
   (C9_amended_upload_refs_collide dbEmpty).2.1 "aaaa" "bbbb" (by decide),
   (C9_amended_upload_refs_collide dbEmpty).2.2 inpOkF "image/jpeg" "JPGBYTES"
     (by decide) (by decide)⟩

end ImageApi
